import Mathlib

/-!
Verification development for the Kalshi trading system: a strategy execution
engine (SQL schema plus seed in the repository, backend described by the spec
and README) and its operator dashboard (api.js and App.jsx).

Modelling conventions: SQL NUMERIC money and price columns become rationals;
nullable columns and optional JSON fields become Option; SQL CHECK constraints
become Boolean validity predicates; JavaScript falsy tests on strings become
emptiness tests.
-/

/-! ## Built-in strategy: signal and evaluation rule -/

inductive TradeAction where
  | buy
  | skip
  | error
deriving DecidableEq, Repr

inductive TradeSide where
  | yes
  | no
deriving DecidableEq, Repr

/-- Configuration of the built-in strategy, with the keys seeded by the
schema file for btc_15m_high_confidence. -/
structure StrategyConfig where
  market_series : String
  interval_minutes : ℕ
  min_price_threshold : ℚ
  max_seconds_remaining : ℤ
  position_pct : ℚ
deriving DecidableEq, Repr

/-- The configuration inserted by the seed statement in the schema file. -/
def seededConfig : StrategyConfig :=
  { market_series := "KXBTC"
    interval_minutes := 15
    min_price_threshold := 90 / 100
    max_seconds_remaining := 60
    position_pct := 5 / 100 }

/-- One observation of the currently open market: ticker, yes and no prices,
seconds remaining until close. -/
structure MarketObs where
  ticker : String
  yes_price : ℚ
  no_price : ℚ
  seconds_remaining : ℤ
deriving DecidableEq, Repr

/-- The outcome of one strategy evaluation, with the contextual fields the
spec lists for a TradeSignal. -/
structure TradeSignal where
  action : TradeAction
  reason : String
  side : Option TradeSide
  contractPrice : Option ℚ
  secondsRemaining : Option ℤ
  portfolioCash : Option ℚ
  positionSize : Option ℚ
  contracts : Option ℤ
deriving DecidableEq, Repr

/-- Modelled from the spec: the backend strategy implementation (the evaluate
method of btc_15m_high_confidence under backend/strategies) is not among the
source files; only the seeded configuration and the README description are.
Following the spec and the README: given the located open market, skip when
the time remaining exceeds the configured ceiling, skip when both prices are
below the configured threshold, otherwise buy the side whose price clears the
threshold, sizing the position as the configured fraction of available cash
and the contract count as that size divided by the contract price, rounded
down. Order placement is taken as succeeding. -/
def evaluate (cfg : StrategyConfig) (m : MarketObs) (cash : ℚ) : TradeSignal :=
  if m.seconds_remaining > cfg.max_seconds_remaining then
    { action := .skip
      reason := "time remaining exceeds ceiling"
      side := none
      contractPrice := none
      secondsRemaining := some m.seconds_remaining
      portfolioCash := some cash
      positionSize := none
      contracts := none }
  else if m.yes_price < cfg.min_price_threshold ∧ m.no_price < cfg.min_price_threshold then
    { action := .skip
      reason := "both prices below threshold"
      side := none
      contractPrice := none
      secondsRemaining := some m.seconds_remaining
      portfolioCash := some cash
      positionSize := none
      contracts := none }
  else
    let chosenSide : TradeSide := if cfg.min_price_threshold ≤ m.yes_price then .yes else .no
    let price : ℚ := match chosenSide with
      | .yes => m.yes_price
      | .no => m.no_price
    let size : ℚ := cfg.position_pct * cash
    { action := .buy
      reason := "high-confidence expiry conditions met"
      side := some chosenSide
      contractPrice := some price
      secondsRemaining := some m.seconds_remaining
      portfolioCash := some cash
      positionSize := some size
      contracts := some ⌊size / price⌋ }

/-- Claim C1: under the seeded configuration, a market with 45 seconds
remaining and yes price 0.92, with 1000 dollars of cash, yields a buy signal
on side yes with position size 0.05 times 1000 = 50 dollars. -/
theorem c1_seeded_buy_yes :
    (evaluate seededConfig ⟨"KXBTC-TEST", 92 / 100, 8 / 100, 45⟩ 1000).action = TradeAction.buy ∧
    (evaluate seededConfig ⟨"KXBTC-TEST", 92 / 100, 8 / 100, 45⟩ 1000).side = some TradeSide.yes ∧
    (evaluate seededConfig ⟨"KXBTC-TEST", 92 / 100, 8 / 100, 45⟩ 1000).positionSize = some 50 := by
  refine ⟨?_, ?_, ?_⟩ <;> norm_num [evaluate, seededConfig]

/-- Claim C2: whenever the time remaining exceeds the configured ceiling, the
built-in strategy returns a skip signal, whatever the prices and cash. -/
theorem c2_ceiling_skip (cfg : StrategyConfig) (m : MarketObs) (cash : ℚ)
    (h : m.seconds_remaining > cfg.max_seconds_remaining) :
    (evaluate cfg m cash).action = TradeAction.skip := by
  simp [evaluate, h]

theorem c2_ceiling_skip_witness :
    (120 : ℤ) > seededConfig.max_seconds_remaining ∧
    (evaluate seededConfig ⟨"KXBTC-TEST", 95 / 100, 5 / 100, 120⟩ 1000).action = TradeAction.skip :=
  ⟨by decide,
   c2_ceiling_skip seededConfig ⟨"KXBTC-TEST", 95 / 100, 5 / 100, 120⟩ 1000 (by decide)⟩

/-- Claim C6: the built-in strategy is deterministic: two evaluations with
equal configuration, equal market data and equal cash produce equal
TradeSignals. -/
theorem c6_deterministic (cfg₁ cfg₂ : StrategyConfig) (m₁ m₂ : MarketObs)
    (cash₁ cash₂ : ℚ) (hc : cfg₁ = cfg₂) (hm : m₁ = m₂) (hs : cash₁ = cash₂) :
    evaluate cfg₁ m₁ cash₁ = evaluate cfg₂ m₂ cash₂ := by
  rw [hc, hm, hs]

theorem c6_deterministic_witness :
    evaluate seededConfig ⟨"KXBTC-TEST", 92 / 100, 8 / 100, 45⟩ 1000 =
      evaluate seededConfig ⟨"KXBTC-TEST", 92 / 100, 8 / 100, 45⟩ 1000 :=
  c6_deterministic seededConfig seededConfig ⟨"KXBTC-TEST", 92 / 100, 8 / 100, 45⟩
    ⟨"KXBTC-TEST", 92 / 100, 8 / 100, 45⟩ 1000 1000 rfl rfl rfl

/-! ## Decisions table: rows and CHECK constraints -/

/-- A row offered to the decisions table, with the columns of the schema.
Nullable columns are Option; params holds the configuration snapshot as its
JSON text. -/
structure DecisionRow where
  strategy_id : Option ℕ
  market_ticker : String
  side : String
  action : String
  reason : Option String
  contract_price : Option ℚ
  time_remaining_seconds : Option ℤ
  portfolio_cash : Option ℚ
  position_size : Option ℚ
  contracts : Option ℤ
  order_id : Option String
  params : String
deriving DecidableEq, Repr

/-- The CHECK constraint on the side column of the decisions table. -/
def sideCheck (s : String) : Bool :=
  s == "yes" || s == "no"

/-- The CHECK constraint on the action column of the decisions table. -/
def actionCheck (a : String) : Bool :=
  a == "buy" || a == "skip" || a == "error"

/-- A row is accepted by the decisions store when it satisfies both CHECK
constraints of the schema. -/
def decisionRowAccepted (r : DecisionRow) : Bool :=
  sideCheck r.side && actionCheck r.action

/-- Claim C3 counterexample: a skip decision whose side is the string unknown
is rejected by the decisions table, whose CHECK constraint admits only yes
and no; such a record is not accepted by the decisions store. -/
theorem c3_unknown_side_rejected :
    decisionRowAccepted
      { strategy_id := some 1
        market_ticker := "KXBTC-TEST"
        side := "unknown"
        action := "skip"
        reason := some "no open market found"
        contract_price := none
        time_remaining_seconds := none
        portfolio_cash := none
        position_size := none
        contracts := none
        order_id := none
        params := "\x7b\x7d" } = false := by
  decide

/-- Claim C3 amended: every row accepted by the decisions store carries side
yes or side no; the string unknown is never persisted. -/
theorem c3_side_yes_or_no (r : DecisionRow) (h : decisionRowAccepted r = true) :
    r.side = "yes" ∨ r.side = "no" := by
  unfold decisionRowAccepted sideCheck at h
  rcases Bool.and_eq_true_iff.mp h with ⟨hside, -⟩
  rcases Bool.or_eq_true_iff.mp hside with hy | hn
  · exact Or.inl (by simpa using hy)
  · exact Or.inr (by simpa using hn)

theorem c3_side_yes_or_no_witness :
    decisionRowAccepted
      { strategy_id := some 1
        market_ticker := "KXBTC-TEST"
        side := "yes"
        action := "buy"
        reason := none
        contract_price := some (92 / 100)
        time_remaining_seconds := some 45
        portfolio_cash := some 1000
        position_size := some 50
        contracts := some 54
        order_id := some "ord-1"
        params := "\x7b\x7d" } = true ∧
    ("yes" = "yes" ∨ ("yes" : String) = "no") :=
  ⟨by decide,
   c3_side_yes_or_no
     { strategy_id := some 1
       market_ticker := "KXBTC-TEST"
       side := "yes"
       action := "buy"
       reason := none
       contract_price := some (92 / 100)
       time_remaining_seconds := some 45
       portfolio_cash := some 1000
       position_size := some 50
       contracts := some 54
       order_id := some "ord-1"
       params := "\x7b\x7d" } (by decide)⟩

/-! ## Strategies table: defaults and NOT NULL columns -/

/-- The values supplied by an INSERT into the strategies table; omitted
columns are none and fall back to the schema defaults. -/
structure StrategyInsertValues where
  name : String
  description : Option String
  enabled : Option Bool
  config : Option String
deriving DecidableEq, Repr

/-- A stored row of the strategies table, every column as its raw nullable
SQL value. -/
structure StrategyTableRow where
  id : Option ℕ
  name : Option String
  description : Option String
  enabled : Option Bool
  config : Option String
  created_at : Option ℕ
  updated_at : Option ℕ
deriving DecidableEq, Repr

/-- Inserting into the strategies table: the schema supplies enabled true and
an empty JSON object as config when the INSERT omits them, and fills id and
both timestamps. -/
def insertStrategy (now id : ℕ) (v : StrategyInsertValues) : StrategyTableRow :=
  { id := some id
    name := some v.name
    description := v.description
    enabled := some (v.enabled.getD true)
    config := some (v.config.getD "\x7b\x7d")
    created_at := some now
    updated_at := some now }

/-- The NOT NULL constraints of the strategies table: name, enabled, config
and both timestamps can never be null; description can. -/
def strategyRowNotNullOk (r : StrategyTableRow) : Bool :=
  r.id.isSome && r.name.isSome && r.enabled.isSome && r.config.isSome &&
    r.created_at.isSome && r.updated_at.isSome

/-- Claim C8: a strategy row created without an enabled flag or configuration
gets enabled true and the empty JSON object by default, and every row the
table stores passes its NOT NULL constraints on name, enabled, config and the
two timestamps. -/
theorem c8_strategy_defaults (now id : ℕ) (n : String) (d : Option String)
    (v : StrategyInsertValues) :
    (insertStrategy now id ⟨n, d, none, none⟩).enabled = some true ∧
    (insertStrategy now id ⟨n, d, none, none⟩).config = some "\x7b\x7d" ∧
    strategyRowNotNullOk (insertStrategy now id v) = true := by
  refine ⟨rfl, rfl, ?_⟩
  simp [strategyRowNotNullOk, insertStrategy]

/-! ## Strategy registry: create and update -/

/-- A strategy record as the registry holds it: unique name, description,
enabled flag, configuration document (its JSON text). -/
structure StrategyRecord where
  name : String
  description : Option String
  enabled : Bool
  config : String
deriving DecidableEq, Repr

inductive RegistryError where
  | DuplicateName
  | NotFound
deriving DecidableEq, Repr

/-- The registry state: its list of strategy records. -/
structure Registry where
  rows : List StrategyRecord
deriving DecidableEq, Repr

/-- No two distinct records of the registry share a name. -/
def namesUnique (reg : Registry) : Prop :=
  reg.rows.Pairwise (fun a b => a.name ≠ b.name)

/-- Modelled from the spec: the backend registry endpoint code is not among
the source files; only the UNIQUE constraint on the name column and the
ON CONFLICT (name) DO NOTHING seed are. Following the spec contract, create
fails with DuplicateName when a record with the same name exists, backed by
the UNIQUE name column, and otherwise appends the new record. -/
def Registry.create (reg : Registry) (rec : StrategyRecord) :
    Except RegistryError Registry :=
  if reg.rows.any (fun r => r.name == rec.name) then .error .DuplicateName
  else .ok ⟨reg.rows ++ [rec]⟩

/-- An update patch: the enabled flag and/or the configuration, nothing
else, as in the spec contract and the PATCH bodies App.jsx sends. -/
structure StrategyPatch where
  enabled : Option Bool
  config : Option String
deriving DecidableEq, Repr

/-- Apply a patch to one record: fields absent from the patch keep their
stored value. -/
def applyPatch (p : StrategyPatch) (r : StrategyRecord) : StrategyRecord :=
  { r with
    enabled := p.enabled.getD r.enabled
    config := p.config.getD r.config }

/-- Patch the record bearing the given name, leaving every other record
untouched. -/
def patchAt (name : String) (p : StrategyPatch) (r : StrategyRecord) :
    StrategyRecord :=
  if r.name == name then applyPatch p r else r

/-- Modelled from the spec: the backend registry endpoint code is not among
the source files. Following the spec contract, update patches the named
record with the enabled flag and/or configuration, and fails with NotFound
when no record bears the name. -/
def Registry.update (reg : Registry) (name : String) (p : StrategyPatch) :
    Except RegistryError Registry :=
  if reg.rows.any (fun r => r.name == name) then
    .ok ⟨reg.rows.map (patchAt name p)⟩
  else .error .NotFound

/-- Claim C5: on a registry with unique names, create fails with
DuplicateName whenever some existing record already bears the new name, so
the stored records are untouched; and whenever create succeeds the resulting
registry still has pairwise distinct names. -/
theorem c5_create_duplicate_name (reg : Registry) (rec : StrategyRecord)
    (hu : namesUnique reg) :
    ((∃ r ∈ reg.rows, r.name = rec.name) →
      Registry.create reg rec = .error .DuplicateName) ∧
    (∀ reg', Registry.create reg rec = .ok reg' → namesUnique reg') := by
  constructor
  · intro hdup
    have hany : reg.rows.any (fun r => r.name == rec.name) = true := by
      rw [List.any_eq_true]
      rcases hdup with ⟨r, hr, hname⟩
      exact ⟨r, hr, by simpa using hname⟩
    simp [Registry.create, hany]
  · intro reg' hok
    by_cases hany : reg.rows.any (fun r => r.name == rec.name) = true
    · simp [Registry.create, hany] at hok
    · simp [Registry.create, hany] at hok
      subst hok
      unfold namesUnique
      rw [List.pairwise_append]
      refine ⟨hu, List.pairwise_singleton _ _, ?_⟩
      intro a ha b hb
      rw [List.mem_singleton] at hb
      subst hb
      rw [List.any_eq_true] at hany
      push_neg at hany
      have := hany a ha
      simpa using this

theorem c5_create_duplicate_name_witness :
    Registry.create ⟨[⟨"btc_15m_high_confidence", none, true, "\x7b\x7d"⟩]⟩
        ⟨"btc_15m_high_confidence", some "copy", false, "\x7b\x7d"⟩ =
      .error .DuplicateName :=
  (c5_create_duplicate_name ⟨[⟨"btc_15m_high_confidence", none, true, "\x7b\x7d"⟩]⟩
      ⟨"btc_15m_high_confidence", some "copy", false, "\x7b\x7d"⟩
      (by simp [namesUnique])).1
    ⟨⟨"btc_15m_high_confidence", none, true, "\x7b\x7d"⟩, by simp, rfl⟩

/-- Claim C7: whenever update succeeds, the new registry is exactly the old
one with the patch applied at the named record; patching never changes the
name or the description of a record, and records bearing a different name are
returned unchanged. -/
theorem c7_update_frame (reg : Registry) (name : String) (p : StrategyPatch)
    (reg' : Registry) (h : Registry.update reg name p = .ok reg') :
    reg'.rows = reg.rows.map (patchAt name p) ∧
    (∀ r : StrategyRecord, (patchAt name p r).name = r.name ∧
      (patchAt name p r).description = r.description) ∧
    (∀ r : StrategyRecord, r.name ≠ name → patchAt name p r = r) := by
  refine ⟨?_, ?_, ?_⟩
  · by_cases hany : reg.rows.any (fun r => r.name == name) = true
    · simp [Registry.update, hany] at h
      rw [← h]
    · simp [Registry.update, hany] at h
  · intro r
    unfold patchAt applyPatch
    by_cases hr : r.name == name <;> simp [hr]
  · intro r hr
    unfold patchAt
    simp [hr]

theorem c7_update_frame_witness :
    Registry.update ⟨[⟨"btc_15m_high_confidence", none, true, "\x7b\x7d"⟩]⟩
        "btc_15m_high_confidence" ⟨some false, none⟩ =
      .ok ⟨[⟨"btc_15m_high_confidence", none, false, "\x7b\x7d"⟩]⟩ ∧
    (Registry.mk [⟨"btc_15m_high_confidence", none, false, "\x7b\x7d"⟩]).rows =
      (Registry.mk [⟨"btc_15m_high_confidence", none, true, "\x7b\x7d"⟩]).rows.map
        (patchAt "btc_15m_high_confidence" ⟨some false, none⟩) :=
  ⟨by rfl,
   (c7_update_frame ⟨[⟨"btc_15m_high_confidence", none, true, "\x7b\x7d"⟩]⟩
      "btc_15m_high_confidence" ⟨some false, none⟩
      ⟨[⟨"btc_15m_high_confidence", none, false, "\x7b\x7d"⟩]⟩ (by rfl)).1⟩

/-! ## Frontend API client: exposed methods and the refresh cycle -/

/-- The member names of the api object exported by api.js. -/
def apiClientMethods : List String :=
  ["portfolio", "portfolioHistory", "strategies", "updateStrategy",
   "createStrategy", "decisions", "decisionStats", "markets"]

/-- The api members the refresh callback in App.jsx invokes, in the order of
its Promise.all array. -/
def refreshCalledMethods : List String :=
  ["portfolio", "portfolioHistory", "decisions", "decisionStats",
   "strategies", "marketState", "apiStats"]

/-- A refresh cycle resolves only when every api member it invokes is one the
client defines; invoking an undefined member throws inside the refresh body
and the catch branch marks the dashboard disconnected. -/
def refreshResolves : Bool :=
  refreshCalledMethods.all (fun m => apiClientMethods.contains m)

/-- Claim C4: the refresh cycle invokes the members marketState and apiStats
for the market snapshot and API call statistics, but the api object of api.js
defines neither, so the refresh does not resolve. -/
theorem c4_refresh_missing_methods :
    refreshResolves = false ∧
    refreshCalledMethods.contains "marketState" = true ∧
    refreshCalledMethods.contains "apiStats" = true ∧
    apiClientMethods.contains "marketState" = false ∧
    apiClientMethods.contains "apiStats" = false := by
  refine ⟨?_, ?_, ?_, ?_, ?_⟩ <;> rfl

/-! ## Frontend API client: the req wrapper -/

/-- A parsed JSON response body: the optional detail field req inspects plus
the remaining fields as uninterpreted key and value text. -/
structure JsonBody where
  detail : Option String
  fields : List (String × String)
deriving DecidableEq, Repr

/-- An HTTP response as req sees it: the ok flag, the status text, and the
outcome of parsing the body as JSON (none when parsing fails). -/
structure HttpResponse where
  ok : Bool
  statusText : String
  body : Option JsonBody
deriving DecidableEq, Repr

/-- The req wrapper of api.js: on a non-ok response it parses the body,
falling back to a synthetic object carrying the status text as detail, and
throws an Error whose message is err.detail when that is truthy and the
status text otherwise; on an ok response it returns the parsed body. The
empty string is falsy in JavaScript, so an empty detail falls back to the
status text. A throw is an Except.error carrying the message. -/
def req (r : HttpResponse) : Except String JsonBody :=
  if r.ok then
    match r.body with
    | some b => .ok b
    | none => .error "unexpected end of JSON input"
  else
    let err : JsonBody := r.body.getD { detail := some r.statusText, fields := [] }
    match err.detail with
    | some d => if d = "" then .error r.statusText else .error d
    | none => .error r.statusText

/-- The error message the source computes for a non-ok response: the detail
field when the body parsed and carries a nonempty detail, the status text
otherwise. -/
def reqErrMessage (r : HttpResponse) : String :=
  match r.body with
  | some b =>
    match b.detail with
    | some d => if d = "" then r.statusText else d
    | none => r.statusText
  | none => r.statusText

/-- Claim C9 counterexample: a non-ok response whose parsed body carries the
detail field with the empty string as value makes req throw the status text,
not the present detail field. -/
theorem c9_empty_detail_uses_status_text :
    req { ok := false, statusText := "Bad Request",
          body := some { detail := some "", fields := [] } } =
      Except.error "Bad Request" ∧
    ("Bad Request" : String) ≠ "" := by
  refine ⟨rfl, by decide⟩

/-- Claim C9 amended: on a non-ok response req never returns a value and
throws the detail field when it is present and nonempty, the status text when
the detail is absent, empty, or the body did not parse; on an ok response
with a parsed body req returns that body. -/
theorem c9_req_behavior (r : HttpResponse) :
    (r.ok = false →
      (∀ b, req r ≠ .ok b) ∧ req r = .error (reqErrMessage r)) ∧
    (∀ b, r.ok = true → r.body = some b → req r = .ok b) := by
  constructor
  · intro hok
    rcases hb : r.body with - | b
    · constructor
      · intro b
        simp [req, hok, hb]
      · simp [req, reqErrMessage, hok, hb]
    · rcases hd : b.detail with - | d
      · constructor
        · intro b'
          simp [req, hok, hb, hd]
        · simp [req, reqErrMessage, hok, hb, hd]
      · by_cases hempty : d = ""
        · constructor
          · intro b'
            simp [req, hok, hb, hd, hempty]
          · simp [req, reqErrMessage, hok, hb, hd, hempty]
        · constructor
          · intro b'
            simp [req, hok, hb, hd, hempty]
          · simp [req, reqErrMessage, hok, hb, hd, hempty]
  · intro b hok hb
    simp [req, hok, hb]

theorem c9_req_behavior_witness :
    req { ok := false, statusText := "Not Found", body := none } =
      .error (reqErrMessage { ok := false, statusText := "Not Found", body := none }) :=
  ((c9_req_behavior { ok := false, statusText := "Not Found", body := none }).1 rfl).2

/-! ## Dashboard portfolio figures -/

/-- The balance object of the exchange portfolio response; the balance field
is in cents and may be absent. -/
structure ExchangeBalance where
  balance : Option ℤ
deriving DecidableEq, Repr

/-- One open position from the portfolio response; market exposure is in
cents and may be absent. -/
structure PositionEntry where
  ticker : String
  position : Option ℤ
  no_position : Option ℤ
  market_exposure : Option ℤ
deriving DecidableEq, Repr

/-- The portfolio response App.jsx stores; the whole response, its balance
object and its positions array may each be absent. -/
structure PortfolioResponse where
  balance : Option ExchangeBalance
  positions : Option (List PositionEntry)
deriving DecidableEq, Repr

/-- The cash figure of App.jsx: the balance in cents divided by 100 when the
chain portfolio, balance, balance is non-null, and null otherwise. -/
def dashCash (pf : Option PortfolioResponse) : Option ℚ :=
  match pf with
  | none => none
  | some p =>
    match p.balance with
    | none => none
    | some b =>
      match b.balance with
      | none => none
      | some cents => some ((cents : ℚ) / 100)

/-- The positions array of App.jsx: the response positions, or empty when the
response or its positions are absent. -/
def dashPositions (pf : Option PortfolioResponse) : List PositionEntry :=
  match pf with
  | none => []
  | some p => p.positions.getD []

/-- The positions-value figure of App.jsx: the reduce over positions summing
market exposure (zero when absent) divided by 100, starting from zero. -/
def dashPosValue (pf : Option PortfolioResponse) : ℚ :=
  (dashPositions pf).foldl
    (fun sum p => sum + ((p.market_exposure.getD 0 : ℤ) : ℚ) / 100) 0

/-- The total-value figure of App.jsx: cash plus positions value when cash is
non-null, and null otherwise. -/
def dashTotalValue (pf : Option PortfolioResponse) : Option ℚ :=
  match dashCash pf with
  | none => none
  | some c => some (c + dashPosValue pf)

theorem foldl_exposure_sum (l : List PositionEntry) (a : ℚ) :
    l.foldl (fun sum p => sum + ((p.market_exposure.getD 0 : ℤ) : ℚ) / 100) a =
      a + (l.map (fun p => ((p.market_exposure.getD 0 : ℤ) : ℚ))).sum / 100 := by
  induction l generalizing a with
  | nil => simp
  | cons p l ih =>
    rw [List.foldl_cons, ih, List.map_cons, List.sum_cons, add_div]
    ring

/-- Claim C10: the dashboard cash figure is the exchange balance in cents
divided by 100, the positions-value figure is the sum over the open positions
of their market exposure divided by 100, and the total-value figure is cash
plus positions value when cash is available and null otherwise. -/
theorem c10_dashboard_figures (pf : Option PortfolioResponse) :
    (∀ p b cents, pf = some p → p.balance = some b → b.balance = some cents →
      dashCash pf = some ((cents : ℚ) / 100)) ∧
    dashPosValue pf =
      ((dashPositions pf).map (fun p => ((p.market_exposure.getD 0 : ℤ) : ℚ))).sum / 100 ∧
    (∀ c, dashCash pf = some c → dashTotalValue pf = some (c + dashPosValue pf)) ∧
    (dashCash pf = none → dashTotalValue pf = none) := by
  refine ⟨?_, ?_, ?_, ?_⟩
  · intro p b cents hp hb hc
    simp [dashCash, hp, hb, hc]
  · rw [dashPosValue, foldl_exposure_sum, zero_add]
  · intro c hc
    simp [dashTotalValue, hc]
  · intro hc
    simp [dashTotalValue, hc]

theorem c10_dashboard_figures_witness :
    dashCash (some ⟨some ⟨some 123456⟩,
        some [⟨"KXBTC-A", some 2, none, some 5000⟩,
              ⟨"KXBTC-B", none, some 3, none⟩]⟩) = some ((123456 : ℚ) / 100) ∧
    dashTotalValue (some ⟨some ⟨some 123456⟩,
        some [⟨"KXBTC-A", some 2, none, some 5000⟩,
              ⟨"KXBTC-B", none, some 3, none⟩]⟩) =
      some ((123456 : ℚ) / 100 +
        dashPosValue (some ⟨some ⟨some 123456⟩,
          some [⟨"KXBTC-A", some 2, none, some 5000⟩,
                ⟨"KXBTC-B", none, some 3, none⟩]⟩)) :=
  ⟨(c10_dashboard_figures (some ⟨some ⟨some 123456⟩,
      some [⟨"KXBTC-A", some 2, none, some 5000⟩,
            ⟨"KXBTC-B", none, some 3, none⟩]⟩)).1
        ⟨some ⟨some 123456⟩, some [⟨"KXBTC-A", some 2, none, some 5000⟩,
          ⟨"KXBTC-B", none, some 3, none⟩]⟩ ⟨some 123456⟩ 123456 rfl rfl rfl,
   (c10_dashboard_figures (some ⟨some ⟨some 123456⟩,
      some [⟨"KXBTC-A", some 2, none, some 5000⟩,
            ⟨"KXBTC-B", none, some 3, none⟩]⟩)).2.2.1 ((123456 : ℚ) / 100) rfl⟩
